import Mathlib

/-!
# Shallow embedding of the WebGPU grid renderer

This file embeds the host-side logic of the repository's grid renderer
(`src/main.js` and the second, double-buffered variant of the same program):
startup and adapter negotiation, the vertex geometry upload, the two
cell-state population loops, bind-group construction, the per-tick
`updateGrid` pass (frame counter increment, bind-group selection by parity,
one instanced draw), and the vertex-stage coordinate arithmetic of the WGSL
shader.  GPU buffer contents are modelled as Lean lists (`writeBuffer`
copies host data, so a buffer's content is the staged list at upload time);
the shader's f32 arithmetic is modelled exactly over `ℚ`.
-/

namespace WebGPU

/-- The configuration constant `GRID_SIZE = 32` of the double-buffered program. -/
def GRID_SIZE : Nat := 32

/-- The scheduler interval constant `UPDATE_INTERVAL = 200` (milliseconds). -/
def UPDATE_INTERVAL : Nat := 200

/-- Grid width/height pair; the spec's GridDescriptor. -/
structure GridDescriptor where
  width : Nat
  height : Nat
deriving DecidableEq

/-- The program configures a square grid: `uniformArray = [GRID_SIZE, GRID_SIZE]`,
so the descriptor the code constructs from its one constant is `{g, g}`. -/
def gridOf (g : Nat) : GridDescriptor := ⟨g, g⟩

/-- The `vertices` Float32Array: 12 floats, two triangles covering one cell,
coordinates ±0.8 in local space. -/
def verticesFloats : List ℚ :=
  [-(4/5), -(4/5), 4/5, -(4/5), 4/5, 4/5,
   -(4/5), -(4/5), 4/5, 4/5, -(4/5), 4/5]

/-- The same geometry viewed through the vertex layout (stride 8 bytes =
two f32 per vertex): the six 2D vertex positions. -/
def vertexPositions : List (ℚ × ℚ) :=
  [(-(4/5), -(4/5)), (4/5, -(4/5)), (4/5, 4/5),
   (-(4/5), -(4/5)), (4/5, 4/5), (-(4/5), 4/5)]

/-- The grid uniform buffer content: `new Float32Array([GRID_SIZE, GRID_SIZE])`. -/
def uniformArray (g : Nat) : List ℚ := [(g : ℚ), (g : ℚ)]

/-- The freshly allocated cell state staging array:
`new Uint32Array(GRID_SIZE * GRID_SIZE)` (zero-initialised). -/
def cellStateArray0 (g : Nat) : List Nat := List.replicate (g * g) 0

/-- The first population loop:
`for (let i = 0; i < cellStateArray.length; i += 3) cellStateArray[i] = 1;`
modelled as a recursive walk with step 3 over the list. -/
def loopEveryThird (a : List Nat) (i : Nat) : List Nat :=
  if h : i < a.length then loopEveryThird (a.set i 1) (i + 3) else a
termination_by a.length - i
decreasing_by simp only [List.length_set]; omega

/-- The second population loop:
`for (let i = 0; i < cellStateArray.length; i++) cellStateArray[i] = i % 2;`
modelled as a recursive walk with step 1 over the list. -/
def loopEveryOther (a : List Nat) (i : Nat) : List Nat :=
  if h : i < a.length then loopEveryOther (a.set i (i % 2)) (i + 1) else a
termination_by a.length - i
decreasing_by simp only [List.length_set]; omega

/-- Content of storage buffer `Cell State A`: the staging array after the
first loop, as captured by `writeBuffer(cellStateStorage[0], 0, cellStateArray)`. -/
def bufferA (g : Nat) : List Nat := loopEveryThird (cellStateArray0 g) 0

/-- Content of storage buffer `Cell State B`: the same staging array after
the second loop, as captured by `writeBuffer(cellStateStorage[1], 0, cellStateArray)`. -/
def bufferB (g : Nat) : List Nat := loopEveryOther (bufferA g) 0

/-- A bind group as the shader sees it: the grid uniform at binding 0 and
one cell-state storage buffer at binding 1. -/
structure BindingSet where
  uniformData : List ℚ
  cellState : List Nat
deriving DecidableEq

/-- The `bindGroups` array: group A pairs the uniform with `Cell State A`,
group B pairs it with `Cell State B`. -/
def bindGroups (g : Nat) : List BindingSet :=
  [⟨uniformArray g, bufferA g⟩, ⟨uniformArray g, bufferB g⟩]

end WebGPU

namespace WebGPU

/-! ## Loop characterisation lemmas -/

theorem getD_set_self (l : List Nat) (i v : Nat) (h : i < l.length) :
    (l.set i v).getD i 0 = v := by
  simp [List.getD_eq_getElem?_getD, List.getElem?_set, h]

theorem getD_set_ne (l : List Nat) (i j v : Nat) (h : i ≠ j) :
    (l.set i v).getD j 0 = l.getD j 0 := by
  simp [List.getD_eq_getElem?_getD, List.getElem?_set, h]

theorem loopEveryThird_length (a : List Nat) (i : Nat) :
    (loopEveryThird a i).length = a.length := by
  induction a, i using loopEveryThird.induct with
  | case1 a i h ih =>
    rw [loopEveryThird]
    simp only [dif_pos h]
    rw [ih, List.length_set]
  | case2 a i h =>
    rw [loopEveryThird]
    simp only [dif_neg h]

theorem loopEveryOther_length (a : List Nat) (i : Nat) :
    (loopEveryOther a i).length = a.length := by
  induction a, i using loopEveryOther.induct with
  | case1 a i h ih =>
    rw [loopEveryOther]
    simp only [dif_pos h]
    rw [ih, List.length_set]
  | case2 a i h =>
    rw [loopEveryOther]
    simp only [dif_neg h]

theorem loopEveryThird_getD (a : List Nat) (i j : Nat) :
    (loopEveryThird a i).getD j 0 =
      if i ≤ j ∧ j < a.length ∧ (j - i) % 3 = 0 then 1 else a.getD j 0 := by
  induction a, i using loopEveryThird.induct with
  | case1 a i h ih =>
    rw [loopEveryThird]
    simp only [dif_pos h]
    rw [ih]
    simp only [List.length_set]
    by_cases hji : j = i
    · subst hji
      rw [if_neg (by omega), getD_set_self a j 1 h, if_pos (by omega)]
    · rw [getD_set_ne a i j 1 (fun hc => hji hc.symm)]
      by_cases hc : i ≤ j ∧ j < a.length ∧ (j - i) % 3 = 0
      · rw [if_pos (by omega), if_pos hc]
      · rw [if_neg (by omega), if_neg hc]
  | case2 a i h =>
    rw [loopEveryThird]
    simp only [dif_neg h]
    rw [if_neg (by omega)]

theorem loopEveryOther_getD (a : List Nat) (i j : Nat) :
    (loopEveryOther a i).getD j 0 =
      if i ≤ j ∧ j < a.length then j % 2 else a.getD j 0 := by
  induction a, i using loopEveryOther.induct with
  | case1 a i h ih =>
    rw [loopEveryOther]
    simp only [dif_pos h]
    rw [ih]
    simp only [List.length_set]
    by_cases hji : j = i
    · subst hji
      rw [if_neg (by omega), getD_set_self a j (j % 2) h, if_pos (by omega)]
    · rw [getD_set_ne a i j (i % 2) (fun hc => hji hc.symm)]
      by_cases hc : i ≤ j ∧ j < a.length
      · rw [if_pos (by omega), if_pos hc]
      · rw [if_neg (by omega), if_neg hc]
  | case2 a i h =>
    rw [loopEveryOther]
    simp only [dif_neg h]
    rw [if_neg (by omega)]

theorem bufferA_length (g : Nat) : (bufferA g).length = g * g := by
  rw [bufferA, loopEveryThird_length, cellStateArray0, List.length_replicate]

theorem bufferB_length (g : Nat) : (bufferB g).length = g * g := by
  rw [bufferB, loopEveryOther_length, bufferA_length]

theorem getD_replicate_zero (n j : Nat) :
    (List.replicate n (0 : Nat)).getD j 0 = 0 := by
  rcases lt_or_le j n with h | h
  · simp [List.getD_eq_getElem?_getD, List.getElem?_replicate, h]
  · have hle : (List.replicate n (0 : Nat)).length ≤ j := by simpa using h
    rw [List.getD_eq_getElem?_getD, List.getElem?_eq_none hle]
    rfl

theorem bufferA_getD (g j : Nat) (hj : j < g * g) :
    (bufferA g).getD j 0 = if j % 3 = 0 then 1 else 0 := by
  rw [bufferA, loopEveryThird_getD]
  simp only [cellStateArray0, List.length_replicate, Nat.zero_le, true_and,
    Nat.sub_zero, getD_replicate_zero]
  by_cases h3 : j % 3 = 0
  · rw [if_pos ⟨hj, h3⟩, if_pos h3]
  · rw [if_neg (fun hc => h3 hc.2), if_neg h3]

theorem bufferB_getD (g j : Nat) (hj : j < g * g) :
    (bufferB g).getD j 0 = j % 2 := by
  rw [bufferB, loopEveryOther_getD]
  rw [if_pos ⟨Nat.zero_le j, by rw [bufferA_length]; exact hj⟩]

/-! ## Frame scheduler and pass executor -/

/-- One recorded draw call, as issued by
`pass.draw(vertices.length / 2, GRID_SIZE * GRID_SIZE)`. -/
structure DrawCall where
  vertexCount : Nat
  instanceCount : Nat
deriving DecidableEq

/-- One recorded frame: the counter value the tick ran with, the bind-group
index selected for it, the bind group actually bound, and the draw calls of
the render pass. -/
structure Frame where
  counter : Nat
  bindGroupIndex : Nat
  binding : BindingSet
  draws : List DrawCall
deriving DecidableEq

/-- The mutable host state: the frame counter `step` plus the device buffer
contents (vertex buffer, grid uniform, the two cell-state storage buffers). -/
structure RenderState where
  step : Nat
  vertexBuffer : List ℚ
  uniformBuffer : List ℚ
  stateA : List Nat
  stateB : List Nat
deriving DecidableEq

/-- The state right after startup: `step = 0` and all four buffers holding
their single upload. -/
def initState (g : Nat) : RenderState :=
  { step := 0
    vertexBuffer := verticesFloats
    uniformBuffer := uniformArray g
    stateA := bufferA g
    stateB := bufferB g }

/-- The `bindGroups` array as it refers to the live buffers of a state
(the groups alias the storage buffers; contents never change after upload). -/
def liveBindGroups (s : RenderState) : List BindingSet :=
  [⟨s.uniformBuffer, s.stateA⟩, ⟨s.uniformBuffer, s.stateB⟩]

/-- One tick of `updateGrid()`: increment `step`, begin a pass, bind
`bindGroups[step % 2]`, issue the single instanced draw
`pass.draw(vertices.length / 2, GRID_SIZE * GRID_SIZE)`, submit.
Returns the new state and a record of the submitted frame. -/
def updateGrid (g : Nat) (s : RenderState) : RenderState × Frame :=
  let step := s.step + 1
  ({ s with step := step },
   { counter := step
     bindGroupIndex := step % 2
     binding := (liveBindGroups s).getD (step % 2) ⟨[], []⟩
     draws := [⟨verticesFloats.length / 2, g * g⟩] })

/-- The state component of one tick. -/
def tickState (g : Nat) (s : RenderState) : RenderState := (updateGrid g s).1

/-- `setInterval(updateGrid, UPDATE_INTERVAL)` run for `n` ticks from
startup: final state and the list of frames submitted, in order. -/
def runTicks (g : Nat) : Nat → RenderState × List Frame
  | 0 => (initState g, [])
  | n + 1 =>
    ((updateGrid g (runTicks g n).1).1,
     (runTicks g n).2 ++ [(updateGrid g (runTicks g n).1).2])

/-- The frame a tick with counter value `c` submits (buffers never change,
so every frame is determined by its counter alone). -/
def tickFrame (g c : Nat) : Frame :=
  { counter := c
    bindGroupIndex := c % 2
    binding := (liveBindGroups (initState g)).getD (c % 2) ⟨[], []⟩
    draws := [⟨verticesFloats.length / 2, g * g⟩] }

/-- The frame submitted by the `n`-th tick (1-indexed). -/
def frameAt (g n : Nat) : Frame := ((runTicks g n).2).getD (n - 1) (tickFrame g 0)

theorem runTicks_fst (g n : Nat) :
    (runTicks g n).1 = { initState g with step := n } := by
  induction n with
  | zero => rfl
  | succ n ih =>
    simp only [runTicks, updateGrid, ih]

theorem runTicks_snd (g n : Nat) :
    (runTicks g n).2 = (List.range n).map (fun k => tickFrame g (k + 1)) := by
  induction n with
  | zero => rfl
  | succ n ih =>
    rw [runTicks]
    simp only [ih, runTicks_fst, List.range_succ, List.map_append, List.map_cons,
      List.map_nil]
    rfl

theorem frameAt_eq (g n : Nat) (hn : 1 ≤ n) : frameAt g n = tickFrame g n := by
  rw [frameAt, runTicks_snd, List.getD_eq_getElem?_getD, List.getElem?_map]
  rw [List.getElem?_range (by omega)]
  simp only [Option.map_some', Option.getD_some]
  congr 1
  omega

/-- The bind group a frame with counter `c` binds: group A on even
counters, group B on odd ones. -/
theorem tickFrame_binding (g c : Nat) :
    (tickFrame g c).binding =
      if c % 2 = 0 then BindingSet.mk (uniformArray g) (bufferA g)
      else BindingSet.mk (uniformArray g) (bufferB g) := by
  rcases Nat.mod_two_eq_zero_or_one c with h | h <;>
    simp [tickFrame, liveBindGroups, initState, h]

/-! ## Startup sequence -/

/-- The spec's error taxonomy.  `WebGPUUnsupported` is the browser-support
throw that precedes adapter negotiation; `UnsupportedHardware` is the
`"No appropriate GPU Adapter found."` throw. -/
inductive StartupError where
  | WebGPUUnsupported
  | UnsupportedHardware
  | DeviceCreationFailed
  | SurfaceConfigError
  | BufferLengthMismatch
deriving DecidableEq

/-- Resource-creation events of the startup path, in program order. -/
inductive InitStep where
  | vertexBufferCreated
  | pipelineCreated
  | uniformBufferCreated
  | cellStateBufferCreated (idx : Nat)
  | bindGroupCreated (idx : Nat)
deriving DecidableEq

/-- The host environment: whether `navigator.gpu` exists and whether
`requestAdapter()` yields an adapter. -/
structure Host where
  gpuSupported : Bool
  adapterAvailable : Bool
deriving DecidableEq

/-- The startup path of the program: throw before any resource creation if
WebGPU or an adapter is missing, otherwise create the vertex buffer,
pipeline, uniform buffer, both cell-state buffers and both bind groups in
program order.  Returns the list of creation events performed and the
error thrown, if any. -/
def startup (host : Host) : List InitStep × Option StartupError :=
  if host.gpuSupported = false then ([], some StartupError.WebGPUUnsupported)
  else if host.adapterAvailable = false then ([], some StartupError.UnsupportedHardware)
  else ([InitStep.vertexBufferCreated, InitStep.pipelineCreated,
         InitStep.uniformBufferCreated,
         InitStep.cellStateBufferCreated 0, InitStep.cellStateBufferCreated 1,
         InitStep.bindGroupCreated 0, InitStep.bindGroupCreated 1], none)

/-- Modelled from the spec: the repository constructs its bind groups with
no explicit length validation (`bindGroups` in the source pairs buffers
whose length always matches), and no `BufferLengthMismatch` check exists in
`src/`.  The spec's construction-time contract — "constructing a BindingSet
with a mismatched buffer length must fail fast with `BufferLengthMismatch`"
— is modelled here as a checked constructor. -/
def mkBindingSet (grid : GridDescriptor) (uniform : List ℚ) (buf : List Nat) :
    Except StartupError BindingSet :=
  if buf.length = grid.width * grid.height then Except.ok ⟨uniform, buf⟩
  else Except.error StartupError.BufferLengthMismatch

/-! ## Vertex-stage arithmetic (WGSL `vertexMain`, modelled over ℚ) -/

/-- `let cellOffset = cell / grid * 2;` (componentwise on `vec2f`). -/
def cellOffsetQ (grid cell : ℚ × ℚ) : ℚ × ℚ :=
  (cell.1 / grid.1 * 2, cell.2 / grid.2 * 2)

/-- `let gridPos = (input.position * scale + 1) / grid - 1 + cellOffset;`
(componentwise on `vec2f`); the scale is `f32(cellState[input.instance])`. -/
def gridPosQ (grid cell : ℚ × ℚ) (scale : ℚ) (pos : ℚ × ℚ) : ℚ × ℚ :=
  ((pos.1 * scale + 1) / grid.1 - 1 + (cellOffsetQ grid cell).1,
   (pos.2 * scale + 1) / grid.2 - 1 + (cellOffsetQ grid cell).2)

/-- `let cell = vec2f(i % grid.x, floor(i / grid.x));` — on the integer
instance indices this is `(i mod w, i div w)`. -/
def cellCoord (w i : Nat) : Nat × Nat := (i % w, i / w)

/-! ## Claim theorems -/

/-- C1 counterexample: the claim states that buffer B's activation value at
index `i` is 1 when `i mod 2 = 0`, but the second population loop stores
`i % 2`, so at index 0 buffer B holds 0 while the claim demands 1. -/
theorem C1_counterexample :
    (bufferB GRID_SIZE).getD 0 0 = 0 ∧
    ¬ ((bufferB GRID_SIZE).getD 0 0 = if 0 % 2 = 0 then 1 else 0) := by
  have h0 : (bufferB GRID_SIZE).getD 0 0 = 0 := by
    have h := bufferB_getD GRID_SIZE 0 (by decide)
    simpa using h
  refine ⟨h0, ?_⟩
  rw [h0]
  decide

/-- C1 (amended): for the GridDescriptor{32,32} configuration, buffer A's
activation value at index `i < 32*32` is 1 when `i mod 3 = 0` and 0
otherwise, and buffer B's activation value is 1 when `i mod 2 = 1`
(odd index) and 0 otherwise. -/
theorem C1_amended (i : Nat) (h : i < GRID_SIZE * GRID_SIZE) :
    (bufferA GRID_SIZE).getD i 0 = (if i % 3 = 0 then 1 else 0) ∧
    (bufferB GRID_SIZE).getD i 0 = (if i % 2 = 1 then 1 else 0) := by
  refine ⟨bufferA_getD GRID_SIZE i h, ?_⟩
  rw [bufferB_getD GRID_SIZE i h]
  rcases Nat.mod_two_eq_zero_or_one i with h2 | h2 <;> simp [h2]

/-- C1 witness: the amended claim at index 3. -/
theorem C1_witness :
    3 < GRID_SIZE * GRID_SIZE ∧
    ((bufferA GRID_SIZE).getD 3 0 = (if 3 % 3 = 0 then 1 else 0) ∧
     (bufferB GRID_SIZE).getD 3 0 = (if 3 % 2 = 1 then 1 else 0)) :=
  ⟨by decide, C1_amended 3 (by decide)⟩

/-- C2: after every tick the selected bind group's index equals the frame
counter mod 2; after an odd number of ticks the bound buffer is B, after a
positive even number it is A. -/
theorem C2_parity (g n : Nat) (hn : 1 ≤ n) :
    (frameAt g n).counter = n ∧
    (frameAt g n).bindGroupIndex = (frameAt g n).counter % 2 ∧
    (n % 2 = 1 → (frameAt g n).binding = BindingSet.mk (uniformArray g) (bufferB g)) ∧
    (n % 2 = 0 → (frameAt g n).binding = BindingSet.mk (uniformArray g) (bufferA g)) := by
  rw [frameAt_eq g n hn]
  refine ⟨rfl, rfl, ?_, ?_⟩
  · intro h1
    rw [tickFrame_binding, if_neg (by omega)]
  · intro h0
    rw [tickFrame_binding, if_pos h0]

/-- C2 witness: the first tick binds buffer B. -/
theorem C2_witness :
    1 ≤ 1 ∧
    ((frameAt GRID_SIZE 1).counter = 1 ∧
     (frameAt GRID_SIZE 1).bindGroupIndex = (frameAt GRID_SIZE 1).counter % 2 ∧
     (1 % 2 = 1 →
       (frameAt GRID_SIZE 1).binding =
         BindingSet.mk (uniformArray GRID_SIZE) (bufferB GRID_SIZE)) ∧
     (1 % 2 = 0 →
       (frameAt GRID_SIZE 1).binding =
         BindingSet.mk (uniformArray GRID_SIZE) (bufferA GRID_SIZE))) :=
  ⟨by decide, C2_parity GRID_SIZE 1 (by decide)⟩

/-- C3: the vertex-stage mapping of instance index to cell coordinate,
`i ↦ (i mod w, i div w)`, is a bijection from `[0, w*h)` onto
`[0,w) × [0,h)`. -/
theorem C3_bijection (w h : Nat) (hw : 1 ≤ w) :
    Set.BijOn (cellCoord w) {i : Nat | i < w * h}
      {p : Nat × Nat | p.1 < w ∧ p.2 < h} := by
  refine ⟨?_, ?_, ?_⟩
  · intro i hi
    simp only [Set.mem_setOf_eq] at hi ⊢
    exact ⟨Nat.mod_lt i hw, Nat.div_lt_of_lt_mul hi⟩
  · intro i hi j hj hij
    simp only [cellCoord, Prod.mk.injEq] at hij
    calc i = w * (i / w) + i % w := (Nat.div_add_mod i w).symm
    _ = w * (j / w) + j % w := by rw [hij.1, hij.2]
    _ = j := Nat.div_add_mod j w
  · intro p hp
    simp only [Set.mem_setOf_eq] at hp
    refine ⟨p.2 * w + p.1, ?_, ?_⟩
    · simp only [Set.mem_setOf_eq]
      calc p.2 * w + p.1 < p.2 * w + w := by omega
      _ = (p.2 + 1) * w := by ring
      _ ≤ h * w := Nat.mul_le_mul_right w (by omega)
      _ = w * h := Nat.mul_comm h w
    · have hm : (p.2 * w + p.1) % w = p.1 := by
        rw [Nat.mul_comm p.2 w, Nat.mul_add_mod, Nat.mod_eq_of_lt hp.1]
      have hd : (p.2 * w + p.1) / w = p.2 := by
        rw [Nat.mul_comm p.2 w, Nat.mul_add_div (by omega), Nat.div_eq_of_lt hp.1,
          Nat.add_zero]
      simp [cellCoord, hm, hd]

/-- C3 witness: the GridDescriptor{4,4} instance — the 16 instance indices
cover the 4×4 coordinate range exactly once. -/
theorem C3_witness :
    1 ≤ 4 ∧
    Set.BijOn (cellCoord 4) {i : Nat | i < 4 * 4}
      {p : Nat × Nat | p.1 < 4 ∧ p.2 < 4} :=
  ⟨by decide, C3_bijection 4 4 (by decide)⟩

/-- C4: every tick issues exactly one draw call, with vertex count 6 (the
uploaded geometry's vertex count) and instance count width × height of the
configured grid descriptor. -/
theorem C4_draw (g n : Nat) (hg : 1 ≤ g) (hn : 1 ≤ n) :
    (frameAt g n).draws.length = 1 ∧
    (frameAt g n).draws =
      [DrawCall.mk (verticesFloats.length / 2) ((gridOf g).width * (gridOf g).height)] ∧
    verticesFloats.length / 2 = 6 := by
  rw [frameAt_eq g n hn]
  exact ⟨rfl, rfl, rfl⟩

/-- C4 witness: the claim at grid size 1, first tick. -/
theorem C4_witness :
    1 ≤ 1 ∧
    ((frameAt 1 1).draws.length = 1 ∧
     (frameAt 1 1).draws =
       [DrawCall.mk (verticesFloats.length / 2) ((gridOf 1).width * (gridOf 1).height)] ∧
     verticesFloats.length / 2 = 6) :=
  ⟨by decide, C4_draw 1 1 (by decide) (by decide)⟩

/-- C5: constructing a BindingSet over a buffer whose length differs from
width × height fails with `BufferLengthMismatch` (spec-modelled checked
constructor), and every bind group any tick of the program ever binds
pairs a cell-state buffer of length exactly width × height. -/
theorem C5_lengthGuard (grid : GridDescriptor) (u : List ℚ) (buf : List Nat)
    (hmis : buf.length ≠ grid.width * grid.height) :
    mkBindingSet grid u buf = Except.error StartupError.BufferLengthMismatch ∧
    ∀ g n, 1 ≤ n → (frameAt g n).binding.cellState.length = g * g := by
  constructor
  · rw [mkBindingSet, if_neg hmis]
  · intro g n hn
    rw [frameAt_eq g n hn, tickFrame_binding]
    rcases Nat.mod_two_eq_zero_or_one n with h | h
    · rw [if_pos h]
      exact bufferA_length g
    · rw [if_neg (by omega)]
      exact bufferB_length g

/-- C5 witness: a one-element buffer against a 2×3 grid is rejected. -/
theorem C5_witness :
    ([0] : List Nat).length ≠ (GridDescriptor.mk 2 3).width * (GridDescriptor.mk 2 3).height ∧
    (mkBindingSet (GridDescriptor.mk 2 3) [] [0] =
       Except.error StartupError.BufferLengthMismatch ∧
     ∀ g n, 1 ≤ n → (frameAt g n).binding.cellState.length = g * g) :=
  ⟨by decide, C5_lengthGuard (GridDescriptor.mk 2 3) [] [0] (by decide)⟩

/-- C6: with activation scale 0 the vertex stage sends every local vertex
position of an instance to one and the same clip-space point, and with
scale 1 the local geometry is translated by the cell offset unscaled. -/
theorem C6_scaleCollapse (grid cell p q : ℚ × ℚ)
    (hp : p ∈ vertexPositions) (hq : q ∈ vertexPositions) :
    gridPosQ grid cell 0 p = gridPosQ grid cell 0 q ∧
    gridPosQ grid cell 1 p =
      ((gridPosQ grid (0, 0) 1 p).1 + (cellOffsetQ grid cell).1,
       (gridPosQ grid (0, 0) 1 p).2 + (cellOffsetQ grid cell).2) := by
  constructor
  · simp [gridPosQ]
  · simp only [gridPosQ, cellOffsetQ, Prod.mk.injEq]
    constructor <;> ring

/-- C6 witness: two concrete vertices of the uploaded geometry in a 32×32
grid at cell (3,5). -/
theorem C6_witness :
    (-(4/5 : ℚ), -(4/5 : ℚ)) ∈ vertexPositions ∧
    ((4/5 : ℚ), -(4/5 : ℚ)) ∈ vertexPositions ∧
    (gridPosQ (32, 32) (3, 5) 0 (-(4/5), -(4/5)) =
       gridPosQ (32, 32) (3, 5) 0 ((4/5), -(4/5)) ∧
     gridPosQ (32, 32) (3, 5) 1 (-(4/5), -(4/5)) =
       ((gridPosQ (32, 32) (0, 0) 1 (-(4/5), -(4/5))).1 + (cellOffsetQ (32, 32) (3, 5)).1,
        (gridPosQ (32, 32) (0, 0) 1 (-(4/5), -(4/5))).2 + (cellOffsetQ (32, 32) (3, 5)).2)) :=
  ⟨List.Mem.head _, List.Mem.tail _ (List.Mem.head _),
   C6_scaleCollapse (32, 32) (3, 5) (-(4/5), -(4/5)) ((4/5), -(4/5))
     (List.Mem.head _) (List.Mem.tail _ (List.Mem.head _))⟩

/-- C7: if WebGPU is present but no adapter is available, startup fails
with `UnsupportedHardware` and performs no buffer, pipeline, or bind-group
creation. -/
theorem C7_adapterFailure (host : Host) (hgpu : host.gpuSupported = true)
    (hadapter : host.adapterAvailable = false) :
    startup host = ([], some StartupError.UnsupportedHardware) := by
  rw [startup, if_neg (by simp [hgpu]), if_pos hadapter]

/-- C7 witness: the host with WebGPU but no adapter. -/
theorem C7_witness :
    (Host.mk true false).gpuSupported = true ∧
    (Host.mk true false).adapterAvailable = false ∧
    startup (Host.mk true false) = ([], some StartupError.UnsupportedHardware) :=
  ⟨rfl, rfl, C7_adapterFailure (Host.mk true false) rfl rfl⟩

/-- One tick only increments the counter; every buffer field of the state
is returned untouched. -/
theorem tickState_fields (g : Nat) (s : RenderState) :
    (tickState g s).vertexBuffer = s.vertexBuffer ∧
    (tickState g s).uniformBuffer = s.uniformBuffer ∧
    (tickState g s).stateA = s.stateA ∧
    (tickState g s).stateB = s.stateB ∧
    (tickState g s).step = s.step + 1 :=
  ⟨rfl, rfl, rfl, rfl, rfl⟩

/-- C8: any number of ticks leaves the vertex buffer, the grid uniform
buffer and both cell-state buffers unchanged; the only state a tick
mutates is the frame counter, which advances by exactly the tick count. -/
theorem C8_buffersImmutable (g n : Nat) (s : RenderState) :
    ((tickState g)^[n] s).vertexBuffer = s.vertexBuffer ∧
    ((tickState g)^[n] s).uniformBuffer = s.uniformBuffer ∧
    ((tickState g)^[n] s).stateA = s.stateA ∧
    ((tickState g)^[n] s).stateB = s.stateB ∧
    ((tickState g)^[n] s).step = s.step + n := by
  induction n with
  | zero => simp
  | succ n ih =>
    rw [Function.iterate_succ_apply']
    obtain ⟨h1, h2, h3, h4, h5⟩ := ih
    have t := tickState_fields g ((tickState g)^[n] s)
    refine ⟨?_, ?_, ?_, ?_, ?_⟩
    · rw [t.1, h1]
    · rw [t.2.1, h2]
    · rw [t.2.2.1, h3]
    · rw [t.2.2.2.1, h4]
    · rw [t.2.2.2.2, h5]
      omega

/-- C9: the second population loop assigns every index of the shared
staging array, so the contents uploaded to buffer B are `j mod 2` at every
index `j`, independent of the buffer-A pattern previously staged in the
same array. -/
theorem C9_staging (a : List Nat) (j : Nat) (hj : j < a.length) :
    (loopEveryOther a 0).getD j 0 = j % 2 := by
  rw [loopEveryOther_getD]
  rw [if_pos ⟨Nat.zero_le j, hj⟩]

/-- C9 witness: a two-element staging array with residue values 9. -/
theorem C9_witness :
    1 < ([9, 9] : List Nat).length ∧
    (loopEveryOther [9, 9] 0).getD 1 0 = 1 % 2 :=
  ⟨by decide, C9_staging [9, 9] 1 (by decide)⟩

/-- C10: every submitted frame carries a counter value of at least 1
(the counter is incremented before the bind-group selection), the first
frame binds bind-group index 1 (buffer B), and no frame is drawn with
counter value 0. -/
theorem C10_counterPositive (g n : Nat) (f : Frame)
    (hf : f ∈ (runTicks g n).2) :
    1 ≤ f.counter ∧ f.counter ≠ 0 ∧
    (frameAt g 1).bindGroupIndex = 1 ∧
    (frameAt g 1).binding = BindingSet.mk (uniformArray g) (bufferB g) := by
  have hc : 1 ≤ f.counter := by
    rw [runTicks_snd] at hf
    obtain ⟨k, hk, rfl⟩ := List.mem_map.mp hf
    have hck : (tickFrame g (k + 1)).counter = k + 1 := rfl
    omega
  refine ⟨hc, by omega, ?_, ?_⟩
  · rw [frameAt_eq g 1 (by omega)]
    rfl
  · rw [frameAt_eq g 1 (by omega), tickFrame_binding, if_neg (by decide)]

/-- C10 witness: the single frame of one tick at grid size 32. -/
theorem C10_witness :
    tickFrame GRID_SIZE 1 ∈ (runTicks GRID_SIZE 1).2 ∧
    (1 ≤ (tickFrame GRID_SIZE 1).counter ∧
     (tickFrame GRID_SIZE 1).counter ≠ 0 ∧
     (frameAt GRID_SIZE 1).bindGroupIndex = 1 ∧
     (frameAt GRID_SIZE 1).binding =
       BindingSet.mk (uniformArray GRID_SIZE) (bufferB GRID_SIZE)) :=
  ⟨by rw [runTicks_snd]; exact List.mem_map.mpr ⟨0, by decide, rfl⟩,
   C10_counterPositive GRID_SIZE 1 (tickFrame GRID_SIZE 1)
     (by rw [runTicks_snd]; exact List.mem_map.mpr ⟨0, by decide, rfl⟩)⟩

end WebGPU
